import Mathlib

/-!
# Verification of the realtime subscription/reconnection layer

Shallow embedding of `SubscriptionManager` (src/unnamed/part_000, the
supabase client library module) and of the user-orders wrapper
`RealtimeService.subscribeToUserOrders` (src/src/services/realtime.ts).

The manager is single-threaded JavaScript: every handler runs to
completion on one event loop.  We model its mutable class state
(`subscriptions`, `reconnectAttempts`) as explicit association lists,
the platform side (open channels, pending `setTimeout` timers) as lists
carried in the same state record, and each externally triggered handler
(a `subscribe` call, a `CHANNEL_ERROR`, a delivered message, a firing
timer, an `unsubscribe`) as a state-transition function translated
line by line from the source.

User callbacks are opaque functions: we represent a callback by a
numeric id `cbId` and give the step functions a semantics parameter
`cbThrows : Nat → Payload → Bool` saying whether invoking callback
`cbId` on a payload raises an exception.  Callback invocations and
`console` log lines are recorded in observation lists `invocations`
and `log`, so that claims about "callback invoked" / "logged" are
statements about the model state.
-/

namespace SubMgr

/-- A database row as far as the wrapper's client-side filter looks at it:
only `user_id` is inspected (realtime.ts line 102). -/
structure Row where
  user_id : String
deriving DecidableEq, Repr

/-- A postgres_changes payload: event type plus optional `new` and `old`
row snapshots. -/
structure Payload where
  eventType : String
  new : Option Row
  old : Option Row
deriving DecidableEq, Repr

/-- The `options` argument of `SubscriptionManager.subscribe`
(`{ event?, schema? }`). -/
structure EventOpts where
  event : Option String
  schema : Option String
deriving DecidableEq, Repr

/-- The full argument tuple of a `subscribe` call
`(key, table, callback, filter?, options?)`; the callback is represented
by its id. -/
structure SubArgs where
  key : String
  table : String
  cbId : Nat
  filter : Option String
  options : Option EventOpts
deriving DecidableEq, Repr

/-- An open realtime channel.  `id` models JavaScript object identity
(`supabase.channel(...)` returns a fresh object each time); `key` is the
logical subscription key the channel was opened for. -/
structure Channel where
  id : Nat
  key : String
deriving DecidableEq, Repr

/-- A pending `setTimeout` scheduled by `handleSubscriptionError`
(part_000 lines 134-137).  The closure captures the complete argument
tuple of the original `subscribe` call and the attempt number used in
its log line; `delay` is the computed backoff in milliseconds. -/
structure Timer where
  tid : Nat
  args : SubArgs
  delay : Nat
  attempt : Nat
deriving DecidableEq, Repr

/-- Console log lines emitted by the manager, abstracted to the data they
carry. -/
inductive LogEntry where
  | callbackError (key : String)
  | attemptReconnect (key : String) (attempt : Nat)
  | maxAttemptsReached (key : String)
deriving DecidableEq, Repr

/-- Complete model state: the manager's two static maps, the platform's
open channels, the pending timers, and the two observation logs. -/
structure ManagerState where
  subscriptions : List (String × Channel)
  reconnectAttempts : List (String × Nat)
  openChannels : List Channel
  pendingTimers : List Timer
  invocations : List (Nat × Payload)
  log : List LogEntry
  nextChannelId : Nat
  nextTimerId : Nat
deriving DecidableEq, Repr

/-- The state at module load: both maps empty, nothing open, nothing
pending. -/
def initState : ManagerState :=
  { subscriptions := [], reconnectAttempts := [], openChannels := []
    pendingTimers := [], invocations := [], log := []
    nextChannelId := 0, nextTimerId := 0 }

/-- `Map.get` on a JavaScript `Map` modelled as an association list. -/
def mapGet {α : Type} (k : String) : List (String × α) → Option α
  | [] => none
  | (k₁, v) :: rest => if k₁ = k then some v else mapGet k rest

/-- `Map.set`: replace in place when the key is present, append
otherwise. -/
def mapSet {α : Type} (k : String) (v : α) : List (String × α) → List (String × α)
  | [] => [(k, v)]
  | (k₁, v₁) :: rest => if k₁ = k then (k, v) :: rest else (k₁, v₁) :: mapSet k v rest

/-- `Map.delete`. -/
def mapErase {α : Type} (k : String) : List (String × α) → List (String × α)
  | [] => []
  | (k₁, v₁) :: rest => if k₁ = k then mapErase k rest else (k₁, v₁) :: mapErase k rest

/-- `supabase.removeChannel(ch)`: the channel object is removed from the
platform's open set.  Channel values are unique along executions
(`nextChannelId` strictly increases), so value equality models object
identity. -/
def removeChan (ch : Channel) : List Channel → List Channel
  | [] => []
  | c :: rest => if c = ch then removeChan ch rest else c :: removeChan ch rest

/-- The open channels whose key is `k`. -/
def keyChannels (k : String) : List Channel → List Channel
  | [] => []
  | c :: rest => if c.key = k then c :: keyChannels k rest else keyChannels k rest

/-- `private static readonly MAX_RECONNECT_ATTEMPTS = 5` (part_000
line 69). -/
def MAX_RECONNECT_ATTEMPTS : Nat := 5

/-- `SubscriptionManager.unsubscribe` (part_000 lines 144-151): if a
subscription is tracked under `key`, remove its channel, its map entry
and its retry state; otherwise do nothing.  Pending timers are NOT
touched — the source never stores the `setTimeout` handle. -/
def unsubscribe (key : String) (s : ManagerState) : ManagerState :=
  match mapGet key s.subscriptions with
  | some ch =>
    { s with
      openChannels := removeChan ch s.openChannels
      subscriptions := mapErase key s.subscriptions
      reconnectAttempts := mapErase key s.reconnectAttempts }
  | none => s

/-- `SubscriptionManager.subscribe` (part_000 lines 71-117): tear down
any existing subscription under the key, open a fresh channel, store it.
The message / error handlers the source attaches to the channel are
modelled by the separate step functions `deliverMessage` and
`handleSubscriptionError`, which take the same captured arguments. -/
def subscribe (a : SubArgs) (s : ManagerState) : ManagerState :=
  let s₁ := unsubscribe a.key s
  let ch : Channel := { id := s₁.nextChannelId, key := a.key }
  { s₁ with
    openChannels := ch :: s₁.openChannels
    subscriptions := mapSet a.key ch s₁.subscriptions
    nextChannelId := s₁.nextChannelId + 1 }

/-- `SubscriptionManager.handleSubscriptionError` (part_000 lines
119-142), run when a `CHANNEL_ERROR` arrives for the channel opened with
arguments `a`: read the attempt count (0 when absent); below the bound,
increment it and schedule a one-shot timer with delay `2 ^ attempts *
1000` ms capturing the full argument tuple; at the bound, log and delete
the retry state (and nothing else). -/
def handleSubscriptionError (a : SubArgs) (s : ManagerState) : ManagerState :=
  let attempts := (mapGet a.key s.reconnectAttempts).getD 0
  if attempts < MAX_RECONNECT_ATTEMPTS then
    { s with
      reconnectAttempts := mapSet a.key (attempts + 1) s.reconnectAttempts
      pendingTimers := s.pendingTimers ++
        [{ tid := s.nextTimerId, args := a, delay := 2 ^ attempts * 1000
           attempt := attempts + 1 }]
      nextTimerId := s.nextTimerId + 1 }
  else
    { s with
      reconnectAttempts := mapErase a.key s.reconnectAttempts
      log := s.log ++ [LogEntry.maxAttemptsReached a.key] }

/-- A scheduled timer fires (part_000 lines 134-137): it leaves the
pending set, logs, and calls `subscribe` with the captured argument
tuple. -/
def fireTimer (t : Timer) (s : ManagerState) : ManagerState :=
  subscribe t.args
    { s with
      pendingTimers := s.pendingTimers.filter (fun u => u.tid ≠ t.tid)
      log := s.log ++ [LogEntry.attemptReconnect t.args.key t.attempt] }

/-- `SubscriptionManager.unsubscribeAll` (part_000 lines 153-159):
remove every tracked channel, clear both maps.  Again pending timers are
not touched. -/
def unsubscribeAll (s : ManagerState) : ManagerState :=
  { s with
    openChannels := s.subscriptions.foldl (fun acc p => removeChan p.2 acc) s.openChannels
    subscriptions := []
    reconnectAttempts := [] }

/-- The postgres_changes handler (part_000 lines 92-99) runs for a
message on the channel opened with key `key` and callback `cbId`:
`try { callback(payload); reconnectAttempts.set(key, 0) } catch { log }`.
The callback is always invoked; the reset happens only when it returns
normally; an exception is caught and logged, nothing rethrown. -/
def deliverMessage (cbThrows : Nat → Payload → Bool) (key : String) (cbId : Nat)
    (p : Payload) (s : ManagerState) : ManagerState :=
  let s₁ := { s with invocations := s.invocations ++ [(cbId, p)] }
  if cbThrows cbId p then
    { s₁ with log := s₁.log ++ [LogEntry.callbackError key] }
  else
    { s₁ with reconnectAttempts := mapSet key 0 s₁.reconnectAttempts }

/-- `SubscriptionManager.getActiveSubscriptions` (part_000 lines
161-163): the tracked keys. -/
def getActiveSubscriptions (s : ManagerState) : List String :=
  s.subscriptions.map Prod.fst

/-- The client-side user check of the wrappers in realtime.ts:
`payload.new?.user_id === userId` on an optional row. -/
def rowMatches (userId : String) : Option Row → Bool
  | some r => r.user_id == userId
  | none => false

/-- The handler `RealtimeService.subscribeToUserOrders` installs
(realtime.ts lines 98-119): the user callback runs exactly under the
guard `payload.new?.user_id === userId || payload.old?.user_id ===
userId`.  The result is the list of payloads passed to the user
callback (the window-event dispatches are outside the model). -/
def userOrdersHandler (userId : String) (p : Payload) : List Payload :=
  if rowMatches userId p.new || rowMatches userId p.old then [p] else []

/-! ## Map lemmas -/

@[simp] theorem mapGet_nil {α : Type} (k : String) :
    mapGet (α := α) k [] = none := rfl

@[simp] theorem mapGet_mapSet_self {α : Type} (k : String) (v : α)
    (l : List (String × α)) : mapGet k (mapSet k v l) = some v := by
  induction l with
  | nil => simp [mapGet, mapSet]
  | cons hd tl ih =>
    by_cases h : hd.1 = k
    · simp [mapGet, mapSet, h]
    · simpa [mapGet, mapSet, h] using ih

@[simp] theorem mapGet_mapSet_ne {α : Type} (k k₁ : String) (v : α)
    (l : List (String × α)) (h : k₁ ≠ k) :
    mapGet k (mapSet k₁ v l) = mapGet k l := by
  induction l with
  | nil => simp [mapGet, mapSet, h]
  | cons hd tl ih =>
    by_cases h₁ : hd.1 = k₁
    · simp [mapGet, mapSet, h₁, h, h₁.symm ▸ h]
    · simp [mapGet, mapSet, h₁]
      split <;> simp_all [mapGet]

@[simp] theorem mapGet_mapErase_self {α : Type} (k : String)
    (l : List (String × α)) : mapGet k (mapErase k l) = none := by
  induction l with
  | nil => simp [mapErase]
  | cons hd tl ih =>
    by_cases h : hd.1 = k
    · simpa [mapErase, h] using ih
    · simpa [mapErase, mapGet, h] using ih

@[simp] theorem mapGet_mapErase_ne {α : Type} (k k₁ : String)
    (l : List (String × α)) (h : k₁ ≠ k) :
    mapGet k (mapErase k₁ l) = mapGet k l := by
  induction l with
  | nil => simp [mapErase]
  | cons hd tl ih =>
    by_cases h₁ : hd.1 = k₁
    · rw [show mapErase k₁ (hd :: tl) = mapErase k₁ tl by simp [mapErase, h₁]]
      rw [ih, show mapGet k (hd :: tl) = mapGet k tl by simp [mapGet, h₁ ▸ h₁ ▸ (h₁.symm ▸ h)]]
    · simp [mapErase, mapGet, h₁]
      split <;> simp_all

/-! ## Concrete data used by the closed evidence theorems -/

/-- A concrete argument tuple used by the closed (counter)example
theorems. -/
def argsK : SubArgs :=
  { key := "k", table := "orders", cbId := 0, filter := none, options := none }

/-- One channel-error step for `argsK`. -/
def errK : ManagerState → ManagerState := handleSubscriptionError argsK

/-- The first backoff timer scheduled for `argsK` from a fresh
subscription (tid 0, delay 2^0 * 1000 = 1000 ms, attempt 1). -/
def timerK : Timer := { tid := 0, args := argsK, delay := 1000, attempt := 1 }

/-! ## Claim theorems -/

/-- C1: for one key, five consecutive channel errors schedule retry
timers with delays exactly 1000, 2000, 4000, 8000, 16000 ms in order
(delay = 1000 * 2^n for n = 0..4, MAX_RECONNECT_ATTEMPTS = 5), and a
sixth consecutive error schedules no timer and instead purges the key's
retry state. -/
theorem five_errors_backoff_then_exhausted (a : SubArgs) :
    let e := handleSubscriptionError a
    let s₅ := e (e (e (e (e (subscribe a initState)))))
    s₅.pendingTimers.map Timer.delay = [1000, 2000, 4000, 8000, 16000] ∧
    (e s₅).pendingTimers = s₅.pendingTimers ∧
    mapGet a.key (e s₅).reconnectAttempts = none := by
  simp [handleSubscriptionError, subscribe, unsubscribe, initState,
    MAX_RECONNECT_ATTEMPTS]

/-- C2: the claim that a failed resubscribe continues with the
previously incremented attempt counter is false on the code.  Concrete
run: subscribe, one channel error (counter 1, timer with delay 1000 ms),
the timer fires and resubscribes — but `subscribe` begins with
`this.unsubscribe(key)`, which deletes the key's `reconnectAttempts`
entry, so after the resubscribe the counter is gone; when the
resubscribe itself errors, the next delay is again 1000 ms and the
counter is set to 1, not 2000 ms with counter 2 as the claim requires.
Consecutive failed resubscribes therefore never reach
MAX_RECONNECT_ATTEMPTS. -/
theorem resubscribe_error_restarts_counter :
    (errK (subscribe argsK initState)).pendingTimers = [timerK] ∧
    mapGet "k" (errK (subscribe argsK initState)).reconnectAttempts = some 1 ∧
    mapGet "k" (fireTimer timerK (errK (subscribe argsK
      initState))).reconnectAttempts = none ∧
    (errK (fireTimer timerK (errK (subscribe argsK
      initState)))).pendingTimers.map Timer.delay = [1000] ∧
    mapGet "k" (errK (fireTimer timerK (errK (subscribe argsK
      initState)))).reconnectAttempts = some 1 := by
  decide

/-- C3: the claim that `unsubscribe` / `unsubscribeAll` cancel
outstanding backoff timers is false on the code: the `setTimeout`
handle is never stored, so nothing can clear it.  Concrete run:
subscribe, one channel error (timer pending), then `unsubscribe "k"` —
the timer is still pending (likewise after `unsubscribeAll`); when it
fires it calls `subscribe` again, leaving the key tracked with a fresh
open channel: a resubscribe fires after teardown. -/
theorem timer_survives_unsubscribe_and_resubscribes :
    (unsubscribe "k" (errK (subscribe argsK initState))).pendingTimers = [timerK] ∧
    (unsubscribeAll (errK (subscribe argsK initState))).pendingTimers = [timerK] ∧
    getActiveSubscriptions (unsubscribe "k" (errK (subscribe argsK initState))) = [] ∧
    getActiveSubscriptions (fireTimer timerK
      (unsubscribe "k" (errK (subscribe argsK initState)))) = ["k"] ∧
    (fireTimer timerK
      (unsubscribe "k" (errK (subscribe argsK initState)))).openChannels.length = 1 := by
  decide

/-- C8: the claim that at most one retry timer is outstanding per key is
false on the code.  Concrete run: subscribe, then two channel errors
before any timer fires — two timers are pending for the same key
(delays 1000 and 2000 ms); moreover a new `subscribe` call for the key
does not cancel them (it only replaces the channel). -/
theorem consecutive_errors_stack_two_timers :
    (errK (errK (subscribe argsK initState))).pendingTimers.map Timer.delay
      = [1000, 2000] ∧
    (errK (errK (subscribe argsK initState))).pendingTimers.map (fun t => t.args.key)
      = ["k", "k"] ∧
    (subscribe argsK (errK (errK (subscribe argsK initState)))).pendingTimers
      = (errK (errK (subscribe argsK initState))).pendingTimers := by
  decide

/-- C7 counterexample: after six consecutive channel errors the sixth
error does purge the retry state and schedules no sixth timer, but the
key is NOT left unsubscribed: the errored channel handle stays in the
subscriptions map and the key still appears in
`getActiveSubscriptions()`, contradicting the claim. -/
theorem exhausted_key_still_listed :
    let e := handleSubscriptionError argsK
    let s₆ := e (e (e (e (e (e (subscribe argsK initState))))))
    getActiveSubscriptions s₆ = ["k"] ∧
    (mapGet "k" s₆.subscriptions).isSome = true ∧
    mapGet "k" s₆.reconnectAttempts = none ∧
    s₆.pendingTimers.length = 5 ∧
    s₆.openChannels.length = 1 := by
  decide

/-- C7 (amended): when a channel error arrives for a key whose attempt
count has reached MAX_RECONNECT_ATTEMPTS, the manager logs the
exhaustion and deletes the key's retry state, schedules no timer, and
no exception surfaces (the step is total); however the key is not
unsubscribed: the subscriptions map, the open channels and hence
`getActiveSubscriptions()` are unchanged, so the key still appears
there. -/
theorem exhaustion_purges_retry_state_only (a : SubArgs) (s : ManagerState)
    (h : ¬ (mapGet a.key s.reconnectAttempts).getD 0 < MAX_RECONNECT_ATTEMPTS) :
    let s₁ := handleSubscriptionError a s
    s₁.pendingTimers = s.pendingTimers ∧
    mapGet a.key s₁.reconnectAttempts = none ∧
    s₁.subscriptions = s.subscriptions ∧
    s₁.openChannels = s.openChannels ∧
    getActiveSubscriptions s₁ = getActiveSubscriptions s ∧
    s₁.log = s.log ++ [LogEntry.maxAttemptsReached a.key] := by
  simp [handleSubscriptionError, getActiveSubscriptions, h]

/-- Witness for `exhaustion_purges_retry_state_only` at a concrete
exhausted state. -/
theorem exhaustion_purges_retry_state_only_witness :
    (¬ (mapGet argsK.key ({ initState with reconnectAttempts := [("k", 5)] }
        : ManagerState).reconnectAttempts).getD 0 < MAX_RECONNECT_ATTEMPTS) ∧
    mapGet argsK.key (handleSubscriptionError argsK
      { initState with reconnectAttempts := [("k", 5)] }).reconnectAttempts = none :=
  ⟨by decide, (exhaustion_purges_retry_state_only argsK
    { initState with reconnectAttempts := [("k", 5)] } (by decide)).2.1⟩

/-- C5: an exception thrown by a user-supplied message callback is
caught where the callback is invoked and logged, never rethrown: the
subscription map, the open channels and the pending timers are
untouched, and the next message on the same channel is still delivered
to the callback (both invocations are recorded). -/
theorem callback_exception_contained (cbThrows : Nat → Payload → Bool)
    (key : String) (cbId : Nat) (p q : Payload) (s : ManagerState)
    (h : cbThrows cbId p = true) :
    let s₁ := deliverMessage cbThrows key cbId p s
    s₁.subscriptions = s.subscriptions ∧
    s₁.openChannels = s.openChannels ∧
    s₁.pendingTimers = s.pendingTimers ∧
    s₁.log = s.log ++ [LogEntry.callbackError key] ∧
    (deliverMessage cbThrows key cbId q s₁).invocations =
      s.invocations ++ [(cbId, p), (cbId, q)] := by
  simp [deliverMessage, h]
  split <;> simp

/-- Witness for `callback_exception_contained`: a callback that always
throws, two concrete payloads, the initial state. -/
theorem callback_exception_contained_witness :
    (fun _ _ => true : Nat → Payload → Bool) 0 ⟨"INSERT", none, none⟩ = true ∧
    (deliverMessage (fun _ _ => true) "k" 0 ⟨"UPDATE", none, none⟩
        (deliverMessage (fun _ _ => true) "k" 0 ⟨"INSERT", none, none⟩
          initState)).invocations =
      initState.invocations ++ [(0, ⟨"INSERT", none, none⟩), (0, ⟨"UPDATE", none, none⟩)] :=
  ⟨rfl, (callback_exception_contained (fun _ _ => true) "k" 0
    ⟨"INSERT", none, none⟩ ⟨"UPDATE", none, none⟩ initState rfl).2.2.2.2⟩

/-- C6: a successful message delivery for a key (the callback returns
without throwing) resets that key's retry counter to 0 — whatever its
prior value in any state `s` — and a subsequent channel error then
schedules a timer with delay 1000 = 1000 * 2^0 ms and counter 1, not a
continuation of the prior attempt count. -/
theorem success_resets_counter_then_base_delay (cbThrows : Nat → Payload → Bool)
    (a : SubArgs) (p : Payload) (s : ManagerState)
    (h : cbThrows a.cbId p = false) :
    let s₁ := deliverMessage cbThrows a.key a.cbId p s
    let s₂ := handleSubscriptionError a s₁
    mapGet a.key s₁.reconnectAttempts = some 0 ∧
    s₂.pendingTimers.map Timer.delay = s₁.pendingTimers.map Timer.delay ++ [1000] ∧
    mapGet a.key s₂.reconnectAttempts = some 1 := by
  simp [deliverMessage, handleSubscriptionError, MAX_RECONNECT_ATTEMPTS, h]

/-- Witness for `success_resets_counter_then_base_delay`: a
never-throwing callback, in a state whose counter already reached 3
after three failed attempts. -/
theorem success_resets_counter_then_base_delay_witness :
    (fun _ _ => false : Nat → Payload → Bool) argsK.cbId ⟨"INSERT", none, none⟩ = false ∧
    mapGet argsK.key (deliverMessage (fun _ _ => false) argsK.key argsK.cbId
      ⟨"INSERT", none, none⟩ (handleSubscriptionError argsK (handleSubscriptionError argsK
        (handleSubscriptionError argsK
          (subscribe argsK initState))))).reconnectAttempts = some 0 :=
  ⟨rfl, (success_resets_counter_then_base_delay (fun _ _ => false) argsK
    ⟨"INSERT", none, none⟩ (handleSubscriptionError argsK (handleSubscriptionError argsK
      (handleSubscriptionError argsK (subscribe argsK initState)))) rfl).1⟩

/-- C10: in the manager's message handler the retry counter is set to 0
exactly when the user callback returns without throwing; when the
callback throws on a delivered message, the reset is skipped and the
key's retry map is left unchanged. -/
theorem counter_reset_only_on_callback_return (cbThrows : Nat → Payload → Bool)
    (key : String) (cbId : Nat) (p : Payload) (s : ManagerState) :
    (deliverMessage cbThrows key cbId p s).reconnectAttempts =
      if cbThrows cbId p then s.reconnectAttempts
      else mapSet key 0 s.reconnectAttempts := by
  by_cases h : cbThrows cbId p <;> simp [deliverMessage, h]

/-- C9: for a user-orders subscription created for user id `u`, the
user callback runs on an incoming INSERT payload exactly when the
payload's `new.user_id` (or `old.user_id`) equals `u`; a matching
payload invokes the callback exactly once with that payload, a
non-matching payload does not invoke it at all. -/
theorem user_orders_client_side_filter (u : String) (p : Payload)
    (h : p.eventType = "INSERT") :
    (userOrdersHandler u p = [p] ↔
      (∃ r, p.new = some r ∧ r.user_id = u) ∨ (∃ r, p.old = some r ∧ r.user_id = u)) ∧
    (userOrdersHandler u p = [p] ∨ userOrdersHandler u p = []) := by
  constructor
  · unfold userOrdersHandler
    split
    · rename_i hmatch
      simp only [true_iff, iff_true_intro rfl, true_iff]
      rcases Bool.or_eq_true_iff.mp hmatch with hm | hm
      · left
        cases hn : p.new with
        | none => rw [hn] at hm; simp [rowMatches] at hm
        | some r =>
          exact ⟨r, rfl, by rw [hn] at hm; simpa [rowMatches] using hm⟩
      · right
        cases hn : p.old with
        | none => rw [hn] at hm; simp [rowMatches] at hm
        | some r =>
          exact ⟨r, rfl, by rw [hn] at hm; simpa [rowMatches] using hm⟩
    · rename_i hmatch
      rw [Bool.or_eq_true_iff] at hmatch
      push_neg at hmatch
      constructor
      · intro hbad
        exact absurd (List.cons_ne_nil p []) (fun _ => by simp_all)
      · rintro (⟨r, hr, hu⟩ | ⟨r, hr, hu⟩)
        · exact absurd (by simp [rowMatches, hr, hu]) hmatch.1
        · exact absurd (by simp [rowMatches, hr, hu]) hmatch.2
  · unfold userOrdersHandler
    split
    · exact Or.inl rfl
    · exact Or.inr rfl

/-- Witness for `user_orders_client_side_filter`: user "u1", an INSERT
payload whose new row carries user_id "u1" (callback invoked once), and
the same theorem separates out that a payload for "u2" is not
delivered. -/
theorem user_orders_client_side_filter_witness :
    (Payload.mk "INSERT" (some ⟨"u1"⟩) none).eventType = "INSERT" ∧
    userOrdersHandler "u1" (Payload.mk "INSERT" (some ⟨"u1"⟩) none) =
      [Payload.mk "INSERT" (some ⟨"u1"⟩) none] :=
  ⟨rfl, (user_orders_client_side_filter "u1"
      (Payload.mk "INSERT" (some ⟨"u1"⟩) none) rfl).1.mpr
    (Or.inl ⟨⟨"u1"⟩, rfl, rfl⟩)⟩

/-! ## Channel-accounting invariant (claim C4) -/

/-- Channel accounting: for every key, the open channels carrying that
key are exactly the channel tracked in the subscriptions map (when
any), and every tracked channel carries its own key. -/
def Inv (s : ManagerState) : Prop :=
  ∀ k, keyChannels k s.openChannels = Option.toList (mapGet k s.subscriptions) ∧
       ∀ ch, mapGet k s.subscriptions = some ch → ch.key = k

theorem keyChannels_removeChan (k : String) (ch : Channel) (l : List Channel) :
    keyChannels k (removeChan ch l) = removeChan ch (keyChannels k l) := by
  induction l with
  | nil => rfl
  | cons c rest ih =>
    by_cases h₁ : c = ch
    · subst h₁
      by_cases h₂ : c.key = k <;> simp [removeChan, keyChannels, h₂, ih]
    · by_cases h₂ : c.key = k <;> simp [removeChan, keyChannels, h₁, h₂, ih]

theorem mapGet_unsubscribe_self (k : String) (s : ManagerState) :
    mapGet k (unsubscribe k s).subscriptions = none := by
  unfold unsubscribe
  cases hc : mapGet k s.subscriptions with
  | none => simpa using hc
  | some ch => simp

theorem Inv_unsubscribe (k₀ : String) (s : ManagerState) (h : Inv s) :
    Inv (unsubscribe k₀ s) := by
  unfold unsubscribe
  cases hc : mapGet k₀ s.subscriptions with
  | none => simpa using h
  | some ch =>
    have hchkey : ch.key = k₀ := (h k₀).2 ch hc
    intro k
    by_cases hk : k = k₀
    · subst hk
      refine ⟨?_, ?_⟩
      · simp only [keyChannels_removeChan, (h k).1, hc, mapGet_mapErase_self]
        simp [removeChan, Option.toList]
      · intro ch' hch'
        simp [mapGet_mapErase_self] at hch'
    · have hne : k₀ ≠ k := fun he => hk he.symm
      refine ⟨?_, ?_⟩
      · simp only [keyChannels_removeChan, (h k).1,
          mapGet_mapErase_ne k k₀ _ hne]
        cases hg : mapGet k s.subscriptions with
        | none => simp [removeChan, Option.toList]
        | some ch' =>
          have hk' : ch'.key = k := (h k).2 ch' hg
          have : ch' ≠ ch := by
            intro he
            exact hk (by rw [← hk', he, hchkey])
          simp [removeChan, Option.toList, this]
      · intro ch' hch'
        simp only [mapGet_mapErase_ne k k₀ _ hne] at hch'
        exact (h k).2 ch' hch'

theorem Inv_subscribe (a : SubArgs) (s : ManagerState) (h : Inv s) :
    Inv (subscribe a s) := by
  have h₁ : Inv (unsubscribe a.key s) := Inv_unsubscribe a.key s h
  have hget : mapGet a.key (unsubscribe a.key s).subscriptions = none :=
    mapGet_unsubscribe_self a.key s
  unfold subscribe
  intro k
  by_cases hk : k = a.key
  · subst hk
    refine ⟨?_, ?_⟩
    · simp only [mapGet_mapSet_self]
      simp only [keyChannels, if_pos rfl]
      rw [(h₁ a.key).1, hget]
      rfl
    · intro ch' hch'
      simp only [mapGet_mapSet_self, Option.some.injEq] at hch'
      rw [← hch']
  · have hne : a.key ≠ k := fun he => hk he.symm
    refine ⟨?_, ?_⟩
    · simp only [mapGet_mapSet_ne k a.key _ _ hne]
      simp only [keyChannels, if_neg hne]
      exact (h₁ k).1
    · intro ch' hch'
      simp only [mapGet_mapSet_ne k a.key _ _ hne] at hch'
      exact (h₁ k).2 ch' hch'

/-- C4: from any state satisfying the channel-accounting invariant, two
immediately consecutive `subscribe` calls for the same key leave
exactly one channel handle tracked and open for that key (the second
call tears the first call's handle down before opening and storing its
own), and the invariant is preserved. -/
theorem double_subscribe_one_channel (a : SubArgs) (s : ManagerState) (h : Inv s) :
    let s₂ := subscribe a (subscribe a s)
    (∃ ch, mapGet a.key s₂.subscriptions = some ch ∧
      keyChannels a.key s₂.openChannels = [ch]) ∧ Inv s₂ := by
  have hInv₂ : Inv (subscribe a (subscribe a s)) :=
    Inv_subscribe a _ (Inv_subscribe a s h)
  have hget : mapGet a.key (subscribe a (subscribe a s)).subscriptions =
      some { id := (unsubscribe a.key (subscribe a s)).nextChannelId, key := a.key } := by
    simp [subscribe]
  exact ⟨⟨_, hget, by rw [(hInv₂ a.key).1, hget]; rfl⟩, hInv₂⟩

/-- Witness for `double_subscribe_one_channel`: the invariant holds in
the initial state, and from it a double subscribe for key "k" tracks
exactly one open channel. -/
theorem double_subscribe_one_channel_witness :
    Inv initState ∧
    ∃ ch, mapGet argsK.key (subscribe argsK (subscribe argsK initState)).subscriptions
        = some ch ∧
      keyChannels argsK.key (subscribe argsK (subscribe argsK initState)).openChannels
        = [ch] :=
  ⟨fun _ => ⟨rfl, fun ch hch => by simp [initState] at hch⟩,
   (double_subscribe_one_channel argsK initState
     (fun _ => ⟨rfl, fun ch hch => by simp [initState] at hch⟩)).1⟩

end SubMgr
